import Mathlib

/-!
Verification of the scoped environment mutators, CI provider registry, directory
scope and CMake argument deriver of the `ci_exec` package, against a shallow
embedding of `ci_exec/utils.py`, `ci_exec/provider.py`, `ci_exec/core.py` and
`ci_exec/parsers/cmake_parser.py`.
-/

/-- The process environment (`os.environ`): a map from variable name to an
optional value; `none` means the variable is not set. -/
def Env : Type := String → Option String

/-- Assignment `os.environ[key] = val`. -/
def Env.setVar (env : Env) (key val : String) : Env :=
  fun k => if k = key then some val else env k

/-- Deletion `del os.environ[key]`. -/
def Env.delVar (env : Env) (key : String) : Env :=
  fun k => if k = key then none else env k

/-- Lookup with default, `os.getenv(key, dflt)`. -/
def Env.getenv (env : Env) (key : String) (dflt : String) : String :=
  (env key).getD dflt

/-- Python truthiness of an `Optional[str]` as returned by
`os.getenv(key, None)`: `None` and the empty string are falsy. -/
def pyTruthy : Option String → Bool
  | none => false
  | some s => s != ""

/-- A Python value as far as the `isinstance(v, str)` validation in
`set_env.__init__` / `unset_env.__init__` cares: either a string or anything
else (an `int`, for example). -/
inductive PyVal
  | str (s : String)
  | nonStr
deriving DecidableEq

/-- Python `isinstance(v, str)`. -/
def PyVal.isStr : PyVal → Bool
  | .str _ => true
  | .nonStr => false

/-- The underlying string of a `PyVal`; only applied after the all-strings
validation has succeeded (the `.nonStr` branch is then unreachable). -/
def PyVal.getStr : PyVal → String
  | .str s => s
  | .nonStr => ""

/-- State of a `set_env` context manager (`utils.py`, class `set_env`):
the requested mapping `self.set_env`, the backups `self.restore_env`, and the
names to delete on exit `self.delete_env`. -/
structure SetEnvState where
  set_env : List (String × String)
  restore_env : List (String × String)
  delete_env : List String
deriving DecidableEq

/-- Constructor `set_env.__init__` (utils.py lines 238-253): fails when given
zero pairs, or when some value is not a string; otherwise stores the requested
mapping with empty `restore_env` / `delete_env`.  Note the source comment
"do not inspect environment until `__enter__`": the constructor never reads or
writes the process environment, which is why it takes no `Env` argument. -/
def set_env_init (kwargs : List (String × PyVal)) : Except String SetEnvState :=
  if kwargs.length = 0 then
    .error "set_env: at least one argument required."
  else if kwargs.any (fun p => !p.2.isStr) then
    .error "set_env: all keys and values must be strings."
  else
    .ok { set_env := kwargs.map (fun p => (p.1, p.2.getStr)),
          restore_env := [], delete_env := [] }

/-- The loop of `set_env.__enter__` (utils.py lines 255-267): for each
requested pair, back up the current value when it is truthy (note: Python
`if curr:`, so an existing empty-string value is recorded for deletion, not
for restoration), otherwise record the key for deletion; then assign the new
value into the environment. -/
def set_env_enter_loop (items : List (String × String))
    (restore_env : List (String × String)) (delete_env : List String)
    (env : Env) : List (String × String) × List String × Env :=
  match items with
  | [] => (restore_env, delete_env, env)
  | (key, val) :: rest =>
    let curr := env key
    if pyTruthy curr then
      set_env_enter_loop rest (restore_env ++ [(key, curr.getD "")]) delete_env
        (env.setVar key val)
    else
      set_env_enter_loop rest restore_env (delete_env ++ [key])
        (env.setVar key val)

/-- `set_env.__enter__`: run the loop over the requested mapping. -/
def set_env_enter (st : SetEnvState) (env : Env) : SetEnvState × Env :=
  let r := set_env_enter_loop st.set_env st.restore_env st.delete_env env
  ({ st with restore_env := r.1, delete_env := r.2.1 }, r.2.2)

/-- `set_env.__exit__` (utils.py lines 269-280): restore every backed-up
value, then delete every recorded key, checking presence first (a nested scope
may already have deleted it). -/
def set_env_exit (st : SetEnvState) (env : Env) : Env :=
  let env := st.restore_env.foldl (fun e p => e.setVar p.1 p.2) env
  st.delete_env.foldl (fun e key => if (e key).isSome then e.delVar key else e) env

/-- State of an `unset_env` context manager (`utils.py`, class `unset_env`):
the names to unset `self.unset_env` and the backups `self.restore_env`. -/
structure UnsetEnvState where
  unset_env : List String
  restore_env : List (String × String)
deriving DecidableEq

/-- Constructor `unset_env.__init__` (utils.py lines 332-344): fails when
given zero names, or when some argument is not a string; otherwise stores the
names with an empty `restore_env`.  As with `set_env`, the constructor never
touches the process environment. -/
def unset_env_init (args : List PyVal) : Except String UnsetEnvState :=
  if args.length = 0 then
    .error "unset_env: at least one argument required."
  else if args.any (fun a => !a.isStr) then
    .error "unset_env: all arguments must be strings."
  else
    .ok { unset_env := args.map PyVal.getStr, restore_env := [] }

/-- The loop of `unset_env.__enter__` (utils.py lines 346-354): for each name
whose current value is truthy (Python `if curr:`, so a name set to the empty
string is skipped like an absent one), back up the value and delete the
variable. -/
def unset_env_enter_loop (keys : List String)
    (restore_env : List (String × String)) (env : Env) :
    List (String × String) × Env :=
  match keys with
  | [] => (restore_env, env)
  | key :: rest =>
    let curr := env key
    if pyTruthy curr then
      unset_env_enter_loop rest (restore_env ++ [(key, curr.getD "")])
        (env.delVar key)
    else
      unset_env_enter_loop rest restore_env env

/-- `unset_env.__enter__`: run the loop over the requested names. -/
def unset_env_enter (st : UnsetEnvState) (env : Env) : UnsetEnvState × Env :=
  let r := unset_env_enter_loop st.unset_env st.restore_env env
  ({ st with restore_env := r.1 }, r.2)

/-- `unset_env.__exit__` (utils.py lines 356-359): restore every backed-up
value. -/
def unset_env_exit (st : UnsetEnvState) (env : Env) : Env :=
  st.restore_env.foldl (fun e p => e.setVar p.1 p.2) env

/-- Python `str.lower()`, character by character (the values involved are all
ASCII, where this agrees with Python).  Defined on the character list so that
it evaluates by kernel reduction. -/
def pyLower (s : String) : String := String.mk (s.data.map Char.toLower)

namespace Provider

/-- `Provider.is_appveyor` (provider.py lines 152-168). -/
def is_appveyor (env : Env) : Bool :=
  pyLower (env.getenv "APPVEYOR" "false") == "true"

/-- `Provider.is_azure_pipelines` (provider.py lines 170-196): all three
variables must exist (values ignored). -/
def is_azure_pipelines (env : Env) : Bool :=
  (env "AZURE_HTTP_USER_AGENT").isSome && (env "AGENT_NAME").isSome &&
    (env "BUILD_REASON").isSome

/-- `Provider.is_circle_ci` (provider.py lines 198-214). -/
def is_circle_ci (env : Env) : Bool :=
  pyLower (env.getenv "CIRCLECI" "false") == "true"

/-- `Provider.is_github_actions` (provider.py lines 216-232). -/
def is_github_actions (env : Env) : Bool :=
  pyLower (env.getenv "GITHUB_ACTIONS" "false") == "true"

/-- `Provider.is_jenkins` (provider.py lines 234-255): both variables must
exist (values ignored). -/
def is_jenkins (env : Env) : Bool :=
  (env "JENKINS_URL").isSome && (env "BUILD_NUMBER").isSome

/-- `Provider.is_travis` (provider.py lines 257-273). -/
def is_travis (env : Env) : Bool :=
  pyLower (env.getenv "TRAVIS" "false") == "true"

/-- `Provider._all_provider_functions`, collected by `ProviderMeta` in class
definition order. -/
def all_provider_functions : List (Env → Bool) :=
  [is_appveyor, is_azure_pipelines, is_circle_ci, is_github_actions,
   is_jenkins, is_travis]

/-- `Provider.is_ci` (provider.py lines 129-150).  Note: the `CI` value is
lowercased before comparison, but the `CONTINUOUS_INTEGRATION` value is
compared to `"true"` without lowercasing. -/
def is_ci (env : Env) : Bool :=
  pyLower (env.getenv "CI" "false") == "true" ||
    env.getenv "CONTINUOUS_INTEGRATION" "false" == "true" ||
    all_provider_functions.any (fun p => p env)

end Provider

/-- An environment in which exactly one variable, `SOME_VAR`, is set, and its
value is the empty string. -/
def empty_var_env : Env :=
  fun k => if k = "SOME_VAR" then some "" else none

/-- An environment in which exactly `CONTINUOUS_INTEGRATION=TRUE` is set. -/
def upper_true_ci_env : Env :=
  fun k => if k = "CONTINUOUS_INTEGRATION" then some "TRUE" else none

/-- C1: entering then exiting a `set_env` scope does NOT restore a variable
whose prior value was the empty string: before entry `SOME_VAR` is set to
`""`, but after exit it is absent (deleted), because `__enter__` classifies
the falsy prior value `""` as not set and records the name in `delete_env`
instead of `restore_env`.  This exhibits the failure of the round-trip
property at an environment with an empty-valued variable. -/
theorem set_env_empty_string_not_restored :
    empty_var_env "SOME_VAR" = some "" ∧
    (let p := set_env_enter ⟨[("SOME_VAR", "new")], [], []⟩ empty_var_env
     set_env_exit p.1 p.2 "SOME_VAR" = none) := by
  constructor
  · rfl
  · rfl

/-- C4: entering an `unset_env` scope does NOT remove a listed variable whose
current value is the empty string: `SOME_VAR` is set (to `""`) before entry,
yet after `__enter__` it is still set to `""` and nothing was recorded in
`restore_env`, because the falsy value `""` is treated like an absent
variable and skipped. -/
theorem unset_env_empty_string_not_removed :
    empty_var_env "SOME_VAR" = some "" ∧
    (let p := unset_env_enter ⟨["SOME_VAR"], []⟩ empty_var_env
     p.2 "SOME_VAR" = some "" ∧ p.1.restore_env = []) := by
  exact ⟨rfl, rfl, rfl⟩

/-- C2: `Provider.is_ci` returns `false` in an environment in which
`CONTINUOUS_INTEGRATION` is set to `"TRUE"` and nothing else is set, because
the code compares that variable to `"true"` case-sensitively (no
`.lower()`), contradicting its documentation table, which declares the check
case-insensitive. -/
theorem is_ci_upper_continuous_integration_false :
    Provider.is_ci upper_true_ci_env = false := by
  decide

/-- An `Except` value in the error state, modelling a raised `ValueError`. -/
def exceptIsError {ε α : Type} : Except ε α → Bool
  | .error _ => true
  | .ok _ => false

/-- C7: constructing a `set_env` scope raises a validation error exactly when
zero pairs are given or some value is not a string, and constructing an
`unset_env` scope raises exactly when zero names are given or some argument
is not a string.  Neither constructor takes (or can touch) the environment:
the source stores the request and defers all environment access to
`__enter__`. -/
theorem set_env_unset_env_init_error_iff
    (kwargs : List (String × PyVal)) (args : List PyVal) :
    (exceptIsError (set_env_init kwargs) = true ↔
      kwargs = [] ∨ ∃ p ∈ kwargs, p.2.isStr = false) ∧
    (exceptIsError (unset_env_init args) = true ↔
      args = [] ∨ ∃ a ∈ args, a.isStr = false) := by
  constructor
  · unfold set_env_init
    split_ifs with h1 h2 <;>
      simp_all [exceptIsError, List.length_eq_zero, List.any_eq_true] <;>
      exact h2
  · unfold unset_env_init
    split_ifs with h1 h2 <;>
      simp_all [exceptIsError, List.length_eq_zero, List.any_eq_true]

/-- Preservation lemma for the `set_env.__enter__` loop: a key that does not
occur among the remaining items keeps its membership status in both
accumulators. -/
theorem set_env_enter_loop_preserves (items : List (String × String)) :
    ∀ (restore_env : List (String × String)) (delete_env : List String)
      (env : Env) (k : String), k ∉ items.map Prod.fst →
      ((k ∈ (set_env_enter_loop items restore_env delete_env env).1.map Prod.fst ↔
          k ∈ restore_env.map Prod.fst) ∧
        (k ∈ (set_env_enter_loop items restore_env delete_env env).2.1 ↔
          k ∈ delete_env)) := by
  induction items with
  | nil => intro restore_env delete_env env k _; simp [set_env_enter_loop]
  | cons hd rest ih =>
    intro restore_env delete_env env k hk
    obtain ⟨key, val⟩ := hd
    simp only [List.map_cons, List.mem_cons, not_or] at hk
    obtain ⟨hne, htail⟩ := hk
    unfold set_env_enter_loop
    by_cases ht : pyTruthy (env key) = true
    · simp only [ht, if_true]
      have := ih (restore_env ++ [(key, (env key).getD "")]) delete_env
        (env.setVar key val) k htail
      simpa [hne] using this
    · simp only [ht, if_false]
      have := ih restore_env (delete_env ++ [key]) (env.setVar key val) k htail
      simpa [hne] using this

/-- Exactly-one lemma for the `set_env.__enter__` loop: a key among the items
(with pairwise distinct keys, as in a Python `dict`) that is in neither
accumulator ends up in exactly one of them. -/
theorem set_env_enter_loop_exactly_one (items : List (String × String)) :
    ∀ (restore_env : List (String × String)) (delete_env : List String)
      (env : Env) (k : String), (items.map Prod.fst).Nodup →
      k ∈ items.map Prod.fst → k ∉ restore_env.map Prod.fst → k ∉ delete_env →
      ((k ∈ (set_env_enter_loop items restore_env delete_env env).1.map Prod.fst ∧
          k ∉ (set_env_enter_loop items restore_env delete_env env).2.1) ∨
        (k ∉ (set_env_enter_loop items restore_env delete_env env).1.map Prod.fst ∧
          k ∈ (set_env_enter_loop items restore_env delete_env env).2.1)) := by
  induction items with
  | nil => intro _ _ _ _ _ h; simp at h
  | cons hd rest ih =>
    intro restore_env delete_env env k hnd hk hr hd2
    obtain ⟨key, val⟩ := hd
    simp only [List.map_cons, List.nodup_cons] at hnd
    obtain ⟨hkeynotin, hndtail⟩ := hnd
    simp only [List.map_cons, List.mem_cons] at hk
    unfold set_env_enter_loop
    rcases hk with hk | hk
    · subst hk
      by_cases ht : pyTruthy (env k) = true
      · simp only [ht, if_true]
        have hpres := set_env_enter_loop_preserves rest
          (restore_env ++ [(k, (env k).getD "")]) delete_env
          (env.setVar k val) k hkeynotin
        left
        refine ⟨hpres.1.mpr ?_, fun hmem => hd2 (hpres.2.mp hmem)⟩
        simp
      · simp only [ht, if_false]
        have hpres := set_env_enter_loop_preserves rest restore_env
          (delete_env ++ [k]) (env.setVar k val) k hkeynotin
        right
        refine ⟨fun hmem => hr (hpres.1.mp hmem), hpres.2.mpr ?_⟩
        simp
    · have hne : k ≠ key := fun h => hkeynotin (h ▸ hk)
      by_cases ht : pyTruthy (env key) = true
      · simp only [ht, if_true]
        refine ih (restore_env ++ [(key, (env key).getD "")]) delete_env
          (env.setVar key val) k hndtail hk ?_ hd2
        simp [hr, hne]
      · simp only [ht, if_false]
        refine ih restore_env (delete_env ++ [key]) (env.setVar key val) k
          hndtail hk hr ?_
        simp [hd2, hne]

/-- C8: after `set_env.__enter__` on a freshly constructed scope (empty
`restore_env` and `delete_env`, as `__init__` leaves them), every name of the
requested mapping appears in exactly one of `restore_env` or `delete_env`:
never in both, never in neither.  The keys are pairwise distinct because the
request is a Python `dict`. -/
theorem set_env_enter_restore_xor_delete (env : Env)
    (kwargs : List (String × String)) (k : String)
    (hnd : (kwargs.map Prod.fst).Nodup) (hk : k ∈ kwargs.map Prod.fst) :
    ((k ∈ (set_env_enter ⟨kwargs, [], []⟩ env).1.restore_env.map Prod.fst ∧
        k ∉ (set_env_enter ⟨kwargs, [], []⟩ env).1.delete_env) ∨
      (k ∉ (set_env_enter ⟨kwargs, [], []⟩ env).1.restore_env.map Prod.fst ∧
        k ∈ (set_env_enter ⟨kwargs, [], []⟩ env).1.delete_env)) := by
  have h := set_env_enter_loop_exactly_one kwargs [] [] env k hnd hk
    (by simp) (by simp)
  simpa [set_env_enter] using h

/-- Witness for C8 at a concrete input: one variable, set in the ambient
environment, lands in `restore_env` and not in `delete_env`. -/
theorem set_env_enter_restore_xor_delete_witness :
    ((("CC" : String) ∈ (set_env_enter ⟨[("CC", "clang")], [], []⟩
        (fun k => if k = "CC" then some "gcc" else none)).1.restore_env.map Prod.fst ∧
      ("CC" : String) ∉ (set_env_enter ⟨[("CC", "clang")], [], []⟩
        (fun k => if k = "CC" then some "gcc" else none)).1.delete_env) ∨
     (("CC" : String) ∉ (set_env_enter ⟨[("CC", "clang")], [], []⟩
        (fun k => if k = "CC" then some "gcc" else none)).1.restore_env.map Prod.fst ∧
      ("CC" : String) ∈ (set_env_enter ⟨[("CC", "clang")], [], []⟩
        (fun k => if k = "CC" then some "gcc" else none)).1.delete_env)) :=
  set_env_enter_restore_xor_delete (fun k => if k = "CC" then some "gcc" else none)
    [("CC", "clang")] "CC" (by decide) (by decide)

/-- A single-quote character as a string, used verbatim in failure messages. -/
def squote : String := "\x27"

/-- What `core.fail` (core.py lines 29-50) receives before terminating the
process: the message written to stderr and the process exit code
(default 1). -/
structure Failure where
  why : String
  exit_code : Nat
deriving DecidableEq

/-- The pieces of filesystem and process state that `cd` touches: the set of
existing directories (regular files are not modelled) and the current working
directory. -/
structure FS where
  dirs : List String
  cwd : String
deriving DecidableEq

/-- `core.mkdir_p`: `Path.mkdir(parents=True, exist_ok=True)`.  In this
directory-only filesystem model creation always succeeds (the failure mode in
the source is a path component being a regular file). -/
def mkdir_p (fs : FS) (dest : String) : FS :=
  { fs with dirs := dest :: fs.dirs }

/-- `cd.__enter__` (utils.py lines 97-120), operating on the resolved
absolute destination computed by `cd.__init__`.  Returns the filesystem state
after the call, the recorded `return_dest` when one was captured, and
`some failure` when `fail` terminated the process.  `Path.cwd()` always
succeeds in this model, and `os.chdir` succeeds on a directory that exists,
so the remaining failure branch is the `create=False` one: it runs before the
working directory is read or changed, so the state comes back untouched. -/
def cd_enter (dest : String) (create : Bool) (fs : FS) :
    FS × Option String × Option Failure :=
  if !(fs.dirs.contains dest) && !create then
    (fs, none, some { why := "cd: " ++ squote ++ dest ++ squote ++
                        " is not a directory, but create=False.",
                      exit_code := 1 })
  else
    let fs := if !(fs.dirs.contains dest) then mkdir_p fs dest else fs
    let return_dest := fs.cwd
    ({ fs with cwd := dest }, some return_dest, none)

/-- C6: entering a `cd` scope whose destination is not an existing directory
with `create = false` fails with exactly the message
`cd: '<destination>' is not a directory, but create=False.` and exit code 1
(the `fail` default, terminating the process), and the filesystem state —
in particular the working directory — is returned unchanged: the failure
happens before `Path.cwd()` is recorded or `os.chdir` is attempted. -/
theorem cd_enter_no_create_fails (fs : FS) (dest : String)
    (h : fs.dirs.contains dest = false) :
    cd_enter dest false fs =
      (fs, none, some { why := "cd: " ++ squote ++ dest ++ squote ++
                          " is not a directory, but create=False.",
                        exit_code := 1 }) := by
  simp only [cd_enter, h, Bool.not_false, Bool.and_self, if_true]

/-- Witness for C6 at a concrete input: from `/source`, entering
`cd "/source/build"` with `create = false` while only `/source` exists. -/
theorem cd_enter_no_create_fails_witness :
    cd_enter "/source/build" false ⟨["/source"], "/source"⟩ =
      (⟨["/source"], "/source"⟩, none,
        some { why := "cd: " ++ squote ++ "/source/build" ++ squote ++
                  " is not a directory, but create=False.",
               exit_code := 1 }) :=
  cd_enter_no_create_fails ⟨["/source"], "/source"⟩ "/source/build" (by decide)

/-- `CMakeParser.makefile_generators` (cmake_parser.py lines 242-250). -/
def makefile_generators : List String :=
  ["Borland Makefiles", "MSYS Makefiles", "MinGW Makefiles", "NMake Makefiles",
   "NMake Makefiles JOM", "Unix Makefiles", "Watcom WMake"]

/-- `CMakeParser.ninja_generator` (cmake_parser.py line 257). -/
def ninja_generator : List String := ["Ninja"]

/-- `CMakeParser.ninja_multi_generator` (cmake_parser.py line 264). -/
def ninja_multi_generator : List String := ["Ninja Multi-Config"]

/-- `CMakeParser.visual_studio_generators` (cmake_parser.py lines 271-280). -/
def visual_studio_generators : List String :=
  ["Visual Studio 9 2008", "Visual Studio 10 2010", "Visual Studio 11 2012",
   "Visual Studio 12 2013", "Visual Studio 14 2015", "Visual Studio 15 2017",
   "Visual Studio 16 2019", "Visual Studio 17 2022"]

/-- `CMakeParser.other_generators` (cmake_parser.py line 287). -/
def other_generators : List String := ["Green Hills MULTI", "Xcode"]

/-- `CMakeParser.is_multi_config_generator` (cmake_parser.py lines 294-298):
membership in the union of the Visual Studio, other and Ninja Multi-Config
sets. -/
def is_multi_config_generator (generator : String) : Bool :=
  (visual_studio_generators ++ other_generators ++ ninja_multi_generator).contains
    generator

/-- `CMakeParser.is_single_config_generator` (cmake_parser.py lines 300-303):
membership in the union of the Makefile and Ninja sets. -/
def is_single_config_generator (generator : String) : Bool :=
  (makefile_generators ++ ninja_generator).contains generator

/-- The parsed `argparse.Namespace` fields that `CMakeParser.parse_args`
reads when deriving the two argument lists.  For each optional flag, `none`
covers both a removed argument (`hasattr` false) and a `None` value, which
the source treats identically through its `hasattr(...) and truthy(...)`
guards.  `generator` is a plain string: the `-G` choices validation happens
in argparse, and can be bypassed by pre-populating the namespace, so the
derivation itself accepts any string. -/
structure PyNamespace where
  generator : String
  architecture : Option String := none
  toolset : Option String := none
  shared : Option Bool := none
  static : Option Bool := none
  cc : Option String := none
  cxx : Option String := none
  build_type : Option String := none
  extra_args : Option (List String) := none
deriving DecidableEq

/-- The derivation pass of `CMakeParser.parse_args` (cmake_parser.py lines
515-560), mapping the parsed namespace to
`(cmake_configure_args, cmake_build_args)`.  In the `BUILD_SHARED_LIBS` step
the source evaluates `parsed_args.shared` unguarded inside the f-string; the
model reads it as false when absent (the source would raise an
`AttributeError` in the removed-`shared`-but-`static`-set corner, which no
claim touches). -/
def parse_args_derive (p : PyNamespace) : List String × List String :=
  let cmake_configure_args : List String := ["-G", p.generator]
  let cmake_build_args : List String := []
  let cmake_configure_args :=
    match p.architecture with
    | some a => if a != "" then cmake_configure_args ++ ["-A", a]
                else cmake_configure_args
    | none => cmake_configure_args
  let cmake_configure_args :=
    match p.toolset with
    | some t => if t != "" then cmake_configure_args ++ ["-T", t]
                else cmake_configure_args
    | none => cmake_configure_args
  let cmake_configure_args :=
    if p.shared.getD false || p.static.getD false then
      cmake_configure_args ++
        ["-DBUILD_SHARED_LIBS=" ++ (if p.shared.getD false then "ON" else "OFF")]
    else cmake_configure_args
  let cmake_configure_args :=
    if is_single_config_generator p.generator then
      let cmake_configure_args :=
        match p.cc with
        | some c => if c != "" then
                      cmake_configure_args ++ ["-DCMAKE_C_COMPILER=" ++ c]
                    else cmake_configure_args
        | none => cmake_configure_args
      match p.cxx with
      | some c => if c != "" then
                    cmake_configure_args ++ ["-DCMAKE_CXX_COMPILER=" ++ c]
                  else cmake_configure_args
      | none => cmake_configure_args
    else cmake_configure_args
  let r :=
    match p.build_type with
    | some bt =>
      if bt != "" then
        if is_multi_config_generator p.generator then
          (cmake_configure_args, cmake_build_args ++ ["--config", bt])
        else
          (cmake_configure_args ++ ["-DCMAKE_BUILD_TYPE=" ++ bt],
            cmake_build_args)
      else (cmake_configure_args, cmake_build_args)
    | none => (cmake_configure_args, cmake_build_args)
  let cmake_configure_args := r.1
  let cmake_build_args := r.2
  let cmake_configure_args :=
    match p.extra_args with
    | some extra => cmake_configure_args ++ extra
    | none => cmake_configure_args
  (cmake_configure_args, cmake_build_args)

/-- The `-A` contribution to `cmake_configure_args`. -/
def arch_part (p : PyNamespace) : List String :=
  match p.architecture with
  | some a => if a != "" then ["-A", a] else []
  | none => []

/-- The `-T` contribution to `cmake_configure_args`. -/
def toolset_part (p : PyNamespace) : List String :=
  match p.toolset with
  | some t => if t != "" then ["-T", t] else []
  | none => []

/-- The `BUILD_SHARED_LIBS` contribution to `cmake_configure_args`. -/
def shared_part (p : PyNamespace) : List String :=
  if p.shared.getD false || p.static.getD false then
    ["-DBUILD_SHARED_LIBS=" ++ (if p.shared.getD false then "ON" else "OFF")]
  else []

/-- The `CMAKE_BUILD_TYPE` define contributed to `cmake_configure_args` by a
non-multi-config generator. -/
def build_type_configure_part (p : PyNamespace) : List String :=
  match p.build_type with
  | some bt => if bt != "" then ["-DCMAKE_BUILD_TYPE=" ++ bt] else []
  | none => []

/-- The trailing `extra_args` contribution to `cmake_configure_args`. -/
def extra_args_part (p : PyNamespace) : List String :=
  match p.extra_args with
  | some extra => extra
  | none => []

/-- A parsed namespace whose generator belongs to neither generator class,
with every other registered option at its parsed default (`cc`/`cxx` stand
in for the platform defaults). -/
def bogus_generator_namespace : PyNamespace :=
  { generator := "Bogus", shared := some false, static := some false,
    cc := some "gcc", cxx := some "g++", build_type := some "Release",
    extra_args := some [] }

/-- C3, counterexample: for a parse whose generator is in neither generator
class (here `"Bogus"`), the derived `cmake_configure_args` DOES contain a
`-DCMAKE_BUILD_TYPE` entry: the build-type step only tests
`is_multi_config_generator`, and its else-branch covers unrecognized
generators together with single-config ones. -/
theorem unrecognized_generator_gets_build_type :
    is_single_config_generator "Bogus" = false ∧
    is_multi_config_generator "Bogus" = false ∧
    "-DCMAKE_BUILD_TYPE=Release" ∈
      (parse_args_derive bogus_generator_namespace).1 := by
  refine ⟨rfl, rfl, ?_⟩
  decide

set_option maxHeartbeats 1000000

/-- C3, amended: for a parse whose generator is in neither generator class,
`cmake_configure_args` receives no `-DCMAKE_C_COMPILER` and no
`-DCMAKE_CXX_COMPILER` entry and `cmake_build_args` is empty (so has no
`--config` entry), but the `-DCMAKE_BUILD_TYPE` define IS appended whenever
`build_type` is present and non-empty: the full output is the generator pair
followed by the architecture, toolset, shared/static, build-type and
extra-args contributions. -/
theorem parse_args_derive_unrecognized_generator (p : PyNamespace)
    (hs : is_single_config_generator p.generator = false)
    (hm : is_multi_config_generator p.generator = false) :
    parse_args_derive p =
      (["-G", p.generator] ++ arch_part p ++ toolset_part p ++ shared_part p ++
        build_type_configure_part p ++ extra_args_part p, []) := by
  unfold parse_args_derive arch_part toolset_part shared_part
    build_type_configure_part extra_args_part
  simp only [hs, hm, Bool.false_eq_true, if_false]
  cases p.architecture <;> cases p.toolset <;> cases p.build_type <;>
    cases p.extra_args <;>
    simp_all [apply_ite Prod.fst, apply_ite Prod.snd] <;>
    split_ifs <;> simp_all

/-- Witness for C3 (amended) at the concrete unrecognized generator
`"Bogus"`. -/
theorem parse_args_derive_unrecognized_generator_witness :
    parse_args_derive bogus_generator_namespace =
      (["-G", "Bogus"] ++ arch_part bogus_generator_namespace ++
        toolset_part bogus_generator_namespace ++
        shared_part bogus_generator_namespace ++
        build_type_configure_part bogus_generator_namespace ++
        extra_args_part bogus_generator_namespace, []) :=
  parse_args_derive_unrecognized_generator bogus_generator_namespace rfl rfl

/-- The parsed namespace for `-G Ninja --build-type Debug` with every other
flag at its default; `cc`/`cxx` stand for the platform-dependent compiler
defaults. -/
def ninja_debug_namespace (cc cxx : String) : PyNamespace :=
  { generator := "Ninja", shared := some false, static := some false,
    cc := some cc, cxx := some cxx, build_type := some "Debug",
    extra_args := some [] }

/-- The parsed namespace for
`-G "Visual Studio 16 2019" -A x64 --build-type Debug` with every other flag
at its default. -/
def vs2019_x64_debug_namespace (cc cxx : String) : PyNamespace :=
  { generator := "Visual Studio 16 2019", architecture := some "x64",
    shared := some false, static := some false, cc := some cc,
    cxx := some cxx, build_type := some "Debug", extra_args := some [] }

/-- C5: with generator `Ninja` and build type `Debug`, `cmake_configure_args`
contains `-DCMAKE_BUILD_TYPE=Debug` and `cmake_build_args` is empty; with
generator `Visual Studio 16 2019`, architecture `x64` and build type
`Debug`, `cmake_configure_args` is exactly
`["-G", "Visual Studio 16 2019", "-A", "x64"]` (in particular it has no
`CMAKE_BUILD_TYPE` entry) and `cmake_build_args` is exactly
`["--config", "Debug"]`.  Stated for every compiler default `cc`/`cxx`. -/
theorem parse_args_ninja_debug_vs_debug (cc cxx : String) :
    ("-DCMAKE_BUILD_TYPE=Debug" ∈
        (parse_args_derive (ninja_debug_namespace cc cxx)).1 ∧
      (parse_args_derive (ninja_debug_namespace cc cxx)).2 = []) ∧
    ((parse_args_derive (vs2019_x64_debug_namespace cc cxx)).1 =
        ["-G", "Visual Studio 16 2019", "-A", "x64"] ∧
      (parse_args_derive (vs2019_x64_debug_namespace cc cxx)).2 =
        ["--config", "Debug"]) := by
  have hm : is_multi_config_generator "Ninja" = false := rfl
  have hs : is_single_config_generator "Ninja" = true := rfl
  refine ⟨⟨?_, ?_⟩, ?_, ?_⟩
  · simp only [parse_args_derive, ninja_debug_namespace, hm, hs]
    split_ifs <;> simp_all
  · simp only [parse_args_derive, ninja_debug_namespace, hm, hs]
    split_ifs <;> simp_all
  · rfl
  · rfl

/-- `CMakeParser.add_argument` (cmake_parser.py lines 393-432): the
reserved-name guard inspects only the positional `*args`; every keyword
argument, `dest` included, is forwarded untouched to
`argparse.ArgumentParser.add_argument` (modelled by the `.ok` result). -/
def add_argument (add_extra_args : Bool) (args : List String)
    (dest : Option String) : Except String Unit :=
  if args.contains "cmake_configure_args" then
    .error (squote ++ "cmake_configure_args" ++ squote ++ " name is reserved.")
  else if args.contains "cmake_build_args" then
    .error (squote ++ "cmake_build_args" ++ squote ++ " name is reserved.")
  else if add_extra_args && args.contains "extra_args" then
    .error (squote ++ "extra_args" ++ squote ++
      " is reserved.  Set `add_extra_args = False` first.")
  else
    .ok ()

/-- C9, counterexample: registering a flag whose `dest` keyword is the
reserved name `cmake_configure_args` succeeds (while extra-args passthrough
is enabled): the guard never looks at the `dest` keyword, only at the
positional names. -/
theorem add_argument_dest_keyword_not_checked :
    add_argument true ["--foo"] (some "cmake_configure_args") = .ok () := by
  rfl

/-- C9, amended: `add_argument` fails exactly when one of the reserved names
`cmake_configure_args` or `cmake_build_args` appears among the positional
name strings, or `extra_args` does while extra-args passthrough is enabled;
a reserved name supplied only through the `dest` keyword is not rejected. -/
theorem add_argument_error_iff (add_extra_args : Bool) (args : List String)
    (dest : Option String) :
    exceptIsError (add_argument add_extra_args args dest) = true ↔
      ("cmake_configure_args" ∈ args ∨ "cmake_build_args" ∈ args ∨
        (add_extra_args = true ∧ "extra_args" ∈ args)) := by
  unfold add_argument
  split_ifs with h1 h2 h3 <;> simp_all [exceptIsError]

/-- The slice of an `argparse.Action` that `CMakeParser.remove` reads: its
flag strings and its `dest`. -/
structure ArgAction where
  option_strings : List String
  dest : String
deriving DecidableEq

/-- The registry a `CMakeParser` keeps: the two lock-step lookup mappings
`flag_map` and `dest_map`, plus the relevant actions of the underlying
`argparse` parser (what `_handle_conflict_resolve` removes from). -/
structure CMakeRegistry where
  flag_map : List (String × ArgAction)
  dest_map : List (String × ArgAction)
  actions : List ArgAction
deriving DecidableEq

/-- Python `del mapping[key]` on an association list with distinct keys. -/
def map_del (m : List (String × ArgAction)) (key : String) :
    List (String × ArgAction) :=
  m.filter (fun p => p.1 != key)

/-- `CMakeParser._get_registered_argument` (cmake_parser.py lines 463-472):
search `flag_map` first, then `dest_map`. -/
def get_registered_argument (st : CMakeRegistry) (arg : String) :
    Option ArgAction :=
  match st.flag_map.lookup arg with
  | some a => some a
  | none => st.dest_map.lookup arg

/-- The `ValueError`s that `CMakeParser.remove` can raise. -/
inductive RemoveError
  | generator_protected
  | extra_args_protected
  | unregistered (missing : List String)
deriving DecidableEq

/-- The removal loop of `CMakeParser.remove` (cmake_parser.py lines
610-630): a registered item is deleted from both mappings (by flag when the
item is a flag, otherwise by dest and the action's first flag) and from the
underlying parser; an unregistered item is appended to `missing`. -/
def remove_loop (st : CMakeRegistry) (items : List String)
    (missing : List String) : CMakeRegistry × List String :=
  match items with
  | [] => (st, missing)
  | item :: rest =>
    match get_registered_argument st item with
    | some found_arg =>
      let st :=
        if (st.flag_map.lookup item).isSome then
          { st with flag_map := map_del st.flag_map item,
                    dest_map := map_del st.dest_map found_arg.dest }
        else
          { st with
              flag_map := map_del st.flag_map
                (found_arg.option_strings.headD ""),
              dest_map := map_del st.dest_map item }
      let st := { st with actions := st.actions.erase found_arg }
      remove_loop st rest missing
    | none => remove_loop st rest (missing ++ [item])

/-- `CMakeParser.remove` (cmake_parser.py lines 567-633): guard the
generator and `extra_args`, then run the removal loop over every requested
item, and only afterwards raise for the (complete) list of unregistered
items — the removals already performed are kept. -/
def remove (st : CMakeRegistry) (args : List String) :
    CMakeRegistry × Option RemoveError :=
  if args.contains "generator" || args.contains "-G" then
    (st, some .generator_protected)
  else if args.contains "extra_args" then
    (st, some .extra_args_protected)
  else
    let r := remove_loop st args []
    if r.2.isEmpty then (r.1, none) else (r.1, some (.unregistered r.2))

/-- The `-G` action registered by `CMakeParser.__init__`. -/
def generator_action : ArgAction := ⟨["-G"], "generator"⟩

/-- The `-A` action registered by `CMakeParser.__init__`. -/
def architecture_action : ArgAction := ⟨["-A"], "architecture"⟩

/-- The `-T` action registered by `CMakeParser.__init__`. -/
def toolset_action : ArgAction := ⟨["-T"], "toolset"⟩

/-- The `--shared` action registered by `CMakeParser.__init__`. -/
def shared_action : ArgAction := ⟨["--shared"], "shared"⟩

/-- The `--static` action registered by `CMakeParser.__init__`. -/
def static_action : ArgAction := ⟨["--static"], "static"⟩

/-- The `--cc` action registered by `CMakeParser.__init__`. -/
def cc_action : ArgAction := ⟨["--cc"], "cc"⟩

/-- The `--cxx` action registered by `CMakeParser.__init__`. -/
def cxx_action : ArgAction := ⟨["--cxx"], "cxx"⟩

/-- The `--build-type` action registered by `CMakeParser.__init__`. -/
def build_type_action : ArgAction := ⟨["--build-type"], "build_type"⟩

/-- The registry as `CMakeParser.__init__` (cmake_parser.py lines 305-391)
leaves it: all eight registered actions in both mappings and in the
underlying parser, in registration order. -/
def initial_registry : CMakeRegistry :=
  { flag_map := [("-G", generator_action), ("-A", architecture_action),
      ("-T", toolset_action), ("--shared", shared_action),
      ("--static", static_action), ("--cc", cc_action),
      ("--cxx", cxx_action), ("--build-type", build_type_action)],
    dest_map := [("generator", generator_action),
      ("architecture", architecture_action), ("toolset", toolset_action),
      ("shared", shared_action), ("static", static_action),
      ("cc", cc_action), ("cxx", cxx_action),
      ("build_type", build_type_action)],
    actions := [generator_action, architecture_action, toolset_action,
      shared_action, static_action, cc_action, cxx_action,
      build_type_action] }

/-- C10: calling `remove` on a fresh parser with the registered flags `-A`
and `--cc` and an unregistered name `b` removes both registered arguments
from `flag_map`, `dest_map` and the underlying parser, and then reports
failure listing exactly `[b]` — the registry mutation survives the error, so
the operation is not atomic. -/
theorem remove_mixed_mutates_then_raises (b : String)
    (hb : b ∉ ["-G", "generator", "-A", "architecture", "-T", "toolset",
      "--shared", "shared", "--static", "static", "--cc", "cc", "--cxx",
      "cxx", "--build-type", "build_type", "extra_args"]) :
    remove initial_registry ["-A", b, "--cc"] =
      ({ flag_map := [("-G", generator_action), ("-T", toolset_action),
            ("--shared", shared_action), ("--static", static_action),
            ("--cxx", cxx_action), ("--build-type", build_type_action)],
         dest_map := [("generator", generator_action),
            ("toolset", toolset_action), ("shared", shared_action),
            ("static", static_action), ("cxx", cxx_action),
            ("build_type", build_type_action)],
         actions := [generator_action, toolset_action, shared_action,
            static_action, cxx_action, build_type_action] },
        some (.unregistered [b])) := by
  simp only [List.mem_cons, List.not_mem_nil, or_false, not_or] at hb
  obtain ⟨hG, hgen, hA, harch, hT, htool, hshf, hsh, hstf, hst, hccf, hcc,
    hcxxf, hcxx, hbtf, hbt, hextra⟩ := hb
  have ehG : (b == "-G") = false := beq_eq_false_iff_ne.mpr hG
  have ehgen : (b == "generator") = false := beq_eq_false_iff_ne.mpr hgen
  have ehA : (b == "-A") = false := beq_eq_false_iff_ne.mpr hA
  have eharch : (b == "architecture") = false := beq_eq_false_iff_ne.mpr harch
  have ehT : (b == "-T") = false := beq_eq_false_iff_ne.mpr hT
  have ehtool : (b == "toolset") = false := beq_eq_false_iff_ne.mpr htool
  have ehshf : (b == "--shared") = false := beq_eq_false_iff_ne.mpr hshf
  have ehsh : (b == "shared") = false := beq_eq_false_iff_ne.mpr hsh
  have ehstf : (b == "--static") = false := beq_eq_false_iff_ne.mpr hstf
  have ehst : (b == "static") = false := beq_eq_false_iff_ne.mpr hst
  have ehccf : (b == "--cc") = false := beq_eq_false_iff_ne.mpr hccf
  have ehcc : (b == "cc") = false := beq_eq_false_iff_ne.mpr hcc
  have ehcxxf : (b == "--cxx") = false := beq_eq_false_iff_ne.mpr hcxxf
  have ehcxx : (b == "cxx") = false := beq_eq_false_iff_ne.mpr hcxx
  have ehbtf : (b == "--build-type") = false := beq_eq_false_iff_ne.mpr hbtf
  have ehbt : (b == "build_type") = false := beq_eq_false_iff_ne.mpr hbt
  have ehextra : (b == "extra_args") = false := beq_eq_false_iff_ne.mpr hextra
  have fhG : ("-G" == b) = false := beq_eq_false_iff_ne.mpr (Ne.symm hG)
  have fhgen : ("generator" == b) = false := beq_eq_false_iff_ne.mpr (Ne.symm hgen)
  have fhA : ("-A" == b) = false := beq_eq_false_iff_ne.mpr (Ne.symm hA)
  have fharch : ("architecture" == b) = false := beq_eq_false_iff_ne.mpr (Ne.symm harch)
  have fhT : ("-T" == b) = false := beq_eq_false_iff_ne.mpr (Ne.symm hT)
  have fhtool : ("toolset" == b) = false := beq_eq_false_iff_ne.mpr (Ne.symm htool)
  have fhshf : ("--shared" == b) = false := beq_eq_false_iff_ne.mpr (Ne.symm hshf)
  have fhsh : ("shared" == b) = false := beq_eq_false_iff_ne.mpr (Ne.symm hsh)
  have fhstf : ("--static" == b) = false := beq_eq_false_iff_ne.mpr (Ne.symm hstf)
  have fhst : ("static" == b) = false := beq_eq_false_iff_ne.mpr (Ne.symm hst)
  have fhccf : ("--cc" == b) = false := beq_eq_false_iff_ne.mpr (Ne.symm hccf)
  have fhcc : ("cc" == b) = false := beq_eq_false_iff_ne.mpr (Ne.symm hcc)
  have fhcxxf : ("--cxx" == b) = false := beq_eq_false_iff_ne.mpr (Ne.symm hcxxf)
  have fhcxx : ("cxx" == b) = false := beq_eq_false_iff_ne.mpr (Ne.symm hcxx)
  have fhbtf : ("--build-type" == b) = false := beq_eq_false_iff_ne.mpr (Ne.symm hbtf)
  have fhbt : ("build_type" == b) = false := beq_eq_false_iff_ne.mpr (Ne.symm hbt)
  have fhextra : ("extra_args" == b) = false := beq_eq_false_iff_ne.mpr (Ne.symm hextra)
  simp [remove, remove_loop, get_registered_argument, map_del,
    initial_registry, generator_action, architecture_action, toolset_action,
    shared_action, static_action, cc_action, cxx_action, build_type_action,
    List.lookup, List.erase, hG, hgen, hA, harch, hT, htool, hshf, hsh,
    hstf, hst, hccf, hcc, hcxxf, hcxx, hbtf, hbt, hextra, Ne.symm hG,
    Ne.symm hgen, Ne.symm hA, Ne.symm harch, Ne.symm hT, Ne.symm htool,
    Ne.symm hshf, Ne.symm hsh, Ne.symm hstf, Ne.symm hst, Ne.symm hccf,
    Ne.symm hcc, Ne.symm hcxxf, Ne.symm hcxx, Ne.symm hbtf, Ne.symm hbt,
    Ne.symm hextra,
    ehG, ehgen, ehA, eharch, ehT, ehtool, ehshf, ehsh, ehstf, ehst, ehccf, ehcc, ehcxxf, ehcxx, ehbtf, ehbt, ehextra, fhG, fhgen, fhA, fharch, fhT, fhtool, fhshf, fhsh, fhstf, fhst, fhccf, fhcc, fhcxxf, fhcxx, fhbtf, fhbt, fhextra]
  decide

/-- Witness for C10 at the concrete unregistered name `"bogus"`. -/
theorem remove_mixed_mutates_then_raises_witness :
    remove initial_registry ["-A", "bogus", "--cc"] =
      ({ flag_map := [("-G", generator_action), ("-T", toolset_action),
            ("--shared", shared_action), ("--static", static_action),
            ("--cxx", cxx_action), ("--build-type", build_type_action)],
         dest_map := [("generator", generator_action),
            ("toolset", toolset_action), ("shared", shared_action),
            ("static", static_action), ("cxx", cxx_action),
            ("build_type", build_type_action)],
         actions := [generator_action, toolset_action, shared_action,
            static_action, cxx_action, build_type_action] },
        some (.unregistered ["bogus"])) :=
  remove_mixed_mutates_then_raises "bogus" (by decide)
